import Mathlib

set_option maxHeartbeats 1000000

/-! Shallow embedding of the PTO python client library (ptoclient.py).

The embedding covers: JSON values as produced by the external transport
layer, python-level exceptions, the per-row result decoders
(_parse_group_result, _parse_observation_result, _parse_set_result), the
page decoder PTOQuery._reload_http_gen, the query-spec builder
PTOQuerySpec, PTOQuery.metadata and PTOQuery.results, and the provenance
crawler Provenance._iterate.

Modelling conventions: HTTP requests, the natural-language date parser,
datetime formatting, and URL authority extraction (urllib.parse netloc)
are external collaborators and appear as explicit oracle functions.
Fallible python code is modelled with Except; a python exception is a
value of PyExc. JSON numbers are modelled as integers (every number that
appears in the claims is an integer). Unbounded while-loops are modelled
with an explicit fuel parameter; a result of Option.none means the fuel
was exhausted, i.e. the source loop did not terminate within that many
iterations. -/

/-- JSON values as decoded from response bodies by the transport layer. -/
inductive JVal where
  | jnull
  | jbool (b : Bool)
  | jnum (n : Int)
  | jstr (s : String)
  | jarr (a : List JVal)
  | jobj (o : List (String × JVal))

/-- Python exceptions that the embedded code can raise.  PTOError is the
exception class defined by ptoclient.py (the spec calls it ServiceError);
valueError, typeError, attributeError, indexError and keyError are the
built-in python exceptions the source can raise.  decodeError is
modelled from the spec: the spec error taxonomy names a DecodeError for
unexpected row shapes, but the source defines no such exception class
and never raises one; the constructor exists only so that statements
about DecodeError can be written down. -/
inductive PyExc where
  | ptoError (status : Nat) (text : String)
  | valueError (msg : String)
  | typeError (msg : String)
  | attributeError (msg : String)
  | indexError
  | keyError (k : String)
  | decodeError
deriving DecidableEq

/-- Python len() on a JSON value: defined for arrays, strings and
objects, a TypeError otherwise. -/
def pyLen : JVal → Except PyExc Nat
  | .jarr a => .ok a.length
  | .jstr s => .ok s.length
  | .jobj o => .ok o.length
  | _ => .error (.typeError "object has no len")

/-- Python integer indexing v[i] on a JSON value (nonnegative index):
array element or string character, IndexError when out of range,
TypeError when not subscriptable.  Array indexing is phrased with
List.drop so that it reduces definitionally on cons cells. -/
def pyIndex : JVal → Nat → Except PyExc JVal
  | .jarr a, i =>
      match a.drop i with
      | x :: _ => .ok x
      | [] => .error .indexError
  | .jstr s, i =>
      match s.toList.drop i with
      | c :: _ => .ok (.jstr (String.singleton c))
      | [] => .error .indexError
  | _, _ => .error (.typeError "object is not subscriptable")

/-- Python equality of a JSON value against a string: only a string
with the same characters compares equal. -/
def jvalEqStr (j : JVal) (k : String) : Bool :=
  match j with
  | .jstr s => s == k
  | _ => false

/-- Whether a character list starts with a pattern. -/
def charsStartWith : List Char → List Char → Bool
  | _, [] => true
  | [], _ :: _ => false
  | c :: cs, d :: ds => c == d && charsStartWith cs ds

/-- Whether a pattern occurs inside a character list, the python
substring test k in s. -/
def charsContain (pat : List Char) : List Char → Bool
  | [] => pat.isEmpty
  | c :: rest => charsStartWith (c :: rest) pat || charsContain pat rest

/-- Splitting a character list at every occurrence of a separator
character, keeping empty pieces, as python str.split does with a
one-character separator. -/
def splitChars (sep : Char) : List Char → List (List Char)
  | [] => [[]]
  | c :: cs =>
      match splitChars sep cs with
      | h :: t => if c = sep then [] :: h :: t else (c :: h) :: t
      | [] => [[]]

/-- Python membership test, k in v, for a string k: key test on objects,
element test on arrays, substring test on strings, TypeError otherwise. -/
def pyContains (j : JVal) (k : String) : Except PyExc Bool :=
  match j with
  | .jobj o => .ok (o.any (fun e => e.1 == k))
  | .jarr a => .ok (a.any (fun e => jvalEqStr e k))
  | .jstr s => .ok (charsContain k.toList s.toList)
  | _ => .error (.typeError "argument is not iterable")

/-- Python string-key indexing v[k]: object lookup (KeyError when the
key is missing), TypeError on any other value. -/
def pyGetItem (j : JVal) (k : String) : Except PyExc JVal :=
  match j with
  | .jobj o =>
      match o.find? (fun e => e.1 == k) with
      | some e => .ok e.2
      | none => .error (.keyError k)
  | _ => .error (.typeError "indices must be integers")

/-- Python iteration, for x in v: arrays yield elements, objects yield
their keys, strings yield one-character strings, TypeError otherwise. -/
def pyIter : JVal → Except PyExc (List JVal)
  | .jarr a => .ok a
  | .jobj o => .ok (o.map (fun e => .jstr e.1))
  | .jstr s => .ok (s.toList.map (fun c => .jstr (String.singleton c)))
  | _ => .error (.typeError "object is not iterable")

/-- One decoded result record, the dict produced by one of the three
row parsers: set_id/time_start/time_end/path/condition/value for obs
rows, the raw descriptor for set rows, group/count and
group0/group1/count for group rows. -/
inductive Record where
  | obs (set_id time_start time_end path condition value : JVal)
  | set (s : JVal)
  | group (g count : JVal)
  | group2 (g0 g1 count : JVal)

/-- _parse_group_result: a 2-element row gives a group/count dict, a
3-element row gives a group0/group1/count dict, and any other length
falls into a branch that evaluates j.dumps() inside a dict literal;
JSON-decoded values (lists, strings, dicts) have no dumps attribute, so
that branch raises AttributeError instead of returning. -/
def parse_group_result (j : JVal) : Except PyExc Record :=
  match pyLen j with
  | .error e => .error e
  | .ok n =>
      if n = 2 then do
        return .group (← pyIndex j 0) (← pyIndex j 1)
      else if n = 3 then do
        return .group2 (← pyIndex j 0) (← pyIndex j 1) (← pyIndex j 2)
      else
        .error (.attributeError "list object has no attribute dumps")

/-- _parse_observation_result: positions 0 to 5 of the row become
set_id, time_start, time_end, path, condition, value in that order; any
elements past position 5 are never read. -/
def parse_observation_result (j : JVal) : Except PyExc Record := do
  return .obs (← pyIndex j 0) (← pyIndex j 1) (← pyIndex j 2)
    (← pyIndex j 3) (← pyIndex j 4) (← pyIndex j 5)

/-- _parse_set_result: wraps the raw set descriptor. -/
def parse_set_result (j : JVal) : Except PyExc Record :=
  .ok (.set j)

/-- Decoding a whole page row list with a row parser.  The generator is
consumed eagerly by pd.DataFrame; the first exception raised by a row
aborts the whole construction before any assignment happens, which the
Except error models. -/
def mapRows (f : JVal → Except PyExc Record) : List JVal → Except PyExc (List Record)
  | [] => .ok []
  | x :: xs => do
      let r ← f x
      let rs ← mapRows f xs
      return r :: rs

/-- PTOQuery._reload_http_gen: dispatch on which of the keys obs, sets,
groups the page object contains, in that order; a page containing none
of them yields no records at all. -/
def reload_http_gen (j : JVal) : Except PyExc (List Record) := do
  if ← pyContains j "obs" then
    mapRows parse_observation_result (← pyIter (← pyGetItem j "obs"))
  else if ← pyContains j "sets" then
    mapRows parse_set_result (← pyIter (← pyGetItem j "sets"))
  else if ← pyContains j "groups" then
    mapRows parse_group_result (← pyIter (← pyGetItem j "groups"))
  else
    return []

/-! PTOQuerySpec: the query-spec builder. -/

/-- One positional argument passed to a variadic builder method: a
python int, a python str, or a value of any other type (carrying its
str() rendering, which is all the source ever computes from it). -/
inductive PyArg where
  | int (n : Int)
  | str (s : String)
  | other (repr : String)
deriving DecidableEq

/-- Python str() of an argument. -/
def pyStr : PyArg → String
  | .int n => toString n
  | .str s => s
  | .other r => r

/-- Python format string application for a hex integer: lowercase
hexadecimal digits, a minus sign in front for negative values. -/
def toHexLower (n : Int) : String :=
  if n < 0 then "-" ++ String.mk (Nat.toDigits 16 n.natAbs)
  else String.mk (Nat.toDigits 16 n.toNat)

/-- The mutable state of a PTOQuerySpec object: the underscore-prefixed
instance attributes set up by the constructor. -/
structure PTOQuerySpecState where
  time_start : Option String
  time_end : Option String
  set_ids : List String
  on_path : List String
  sources : List String
  targets : List String
  conditions : List String
  group : List String
  options : List String
deriving DecidableEq

/-- The state produced by the PTOQuerySpec constructor. -/
def PTOQuerySpecState.init : PTOQuerySpecState :=
  ⟨none, none, [], [], [], [], [], [], []⟩

/-- The value a python method call evaluates to, as far as the source
uses it: the spec object itself (return self) or None (no return
statement). -/
inductive RetVal where
  | rself
  | rnone
deriving DecidableEq

/-- One python instant (a datetime.datetime), abstracted: formatting is
an external oracle. -/
inductive PyTime where
  | int (n : Int)
  | str (s : String)
  | dt (t : Nat)

/-- _as_time_query_string: an int raises ValueError; a str goes through
the external dateparser (returning an instant or python None, and
calling strftime on None raises AttributeError); a datetime is formatted
directly.  dparse is the external dateparser.parse oracle and fmt the
external strftime oracle. -/
def as_time_query_string (dparse : String → Option Nat) (fmt : Nat → String) :
    PyTime → Except PyExc String
  | .int _ => .error (.valueError "...no parsing of epoch times yet...")
  | .str s =>
      match dparse s with
      | some d => .ok (fmt d)
      | none => .error (.attributeError "NoneType object has no attribute strftime")
  | .dt t => .ok (fmt t)

/-- PTOQuerySpec.time: converts the start, assigns it, then converts the
end; an exception from the second conversion leaves the already-assigned
start in place, mirroring the two sequential assignments in the source. -/
def time_ (dparse : String → Option Nat) (fmt : Nat → String)
    (s : PTOQuerySpecState) (t1 t2 : PyTime) :
    PTOQuerySpecState × Except PyExc RetVal :=
  match as_time_query_string dparse fmt t1 with
  | .error e => (s, .error e)
  | .ok v1 =>
      let s1 := { s with time_start := some v1 }
      match as_time_query_string dparse fmt t2 with
      | .error e => (s1, .error e)
      | .ok v2 => ({ s1 with time_end := some v2 }, .ok .rself)

/-- PTOQuerySpec.set_id: appends each argument in order, rendering ints
as lowercase hex and keeping only the trailing path segment of strings;
any other argument type raises TypeError, keeping the appends made so
far (the for loop mutates as it goes). -/
def set_id_ (s : PTOQuerySpecState) (args : List PyArg) :
    PTOQuerySpecState × Except PyExc RetVal :=
  match args with
  | [] => (s, .ok .rself)
  | .int n :: rest => set_id_ { s with set_ids := s.set_ids ++ [toHexLower n] } rest
  | .str v :: rest =>
      set_id_
        { s with
          set_ids := s.set_ids ++ [String.mk ((splitChars '/' v.toList).getLastD [])] }
        rest
  | .other _ :: _ => (s, .error (.typeError "cant deal with value as set_id"))

/-- PTOQuerySpec.on_path: appends str() of each argument, returns self. -/
def on_path_ (s : PTOQuerySpecState) (args : List PyArg) :
    PTOQuerySpecState × Except PyExc RetVal :=
  ({ s with on_path := s.on_path ++ args.map pyStr }, .ok .rself)

/-- PTOQuerySpec.source: appends str() of each argument, returns self. -/
def source_ (s : PTOQuerySpecState) (args : List PyArg) :
    PTOQuerySpecState × Except PyExc RetVal :=
  ({ s with sources := s.sources ++ args.map pyStr }, .ok .rself)

/-- PTOQuerySpec.target: appends str() of each argument, returns self. -/
def target_ (s : PTOQuerySpecState) (args : List PyArg) :
    PTOQuerySpecState × Except PyExc RetVal :=
  ({ s with targets := s.targets ++ args.map pyStr }, .ok .rself)

/-- PTOQuerySpec.condition: appends str() of each argument, returns self. -/
def condition_ (s : PTOQuerySpecState) (args : List PyArg) :
    PTOQuerySpecState × Except PyExc RetVal :=
  ({ s with conditions := s.conditions ++ args.map pyStr }, .ok .rself)

/-- The message of the ValueError raised for a third grouping dimension. -/
def groupDimMsg : String :=
  "only one- and two-dimensional grouping is currently supported by the PTO"

/-- PTOQuerySpec._append_group: raises ValueError, leaving the state
untouched, when two grouping dimensions are already present; otherwise
appends the tag and returns self. -/
def append_group (s : PTOQuerySpecState) (gstr : String) :
    PTOQuerySpecState × Except PyExc RetVal :=
  if 2 ≤ s.group.length then (s, .error (.valueError groupDimMsg))
  else ({ s with group := s.group ++ [gstr] }, .ok .rself)

/-- PTOQuerySpec.time_series_year. -/
def time_series_year_ (s : PTOQuerySpecState) := append_group s "year"

/-- PTOQuerySpec.time_series_month. -/
def time_series_month_ (s : PTOQuerySpecState) := append_group s "month"

/-- PTOQuerySpec.time_series_week. -/
def time_series_week_ (s : PTOQuerySpecState) := append_group s "week"

/-- PTOQuerySpec.time_series_day. -/
def time_series_day_ (s : PTOQuerySpecState) := append_group s "day"

/-- PTOQuerySpec.time_series_hour. -/
def time_series_hour_ (s : PTOQuerySpecState) := append_group s "hour"

/-- PTOQuerySpec.group_by_day_of_week. -/
def group_by_day_of_week_ (s : PTOQuerySpecState) := append_group s "week_day"

/-- PTOQuerySpec.group_by_hour_of_day. -/
def group_by_hour_of_day_ (s : PTOQuerySpecState) := append_group s "day_hour"

/-- PTOQuerySpec.group_by_condition. -/
def group_by_condition_ (s : PTOQuerySpecState) := append_group s "condition"

/-- PTOQuerySpec.group_by_source. -/
def group_by_source_ (s : PTOQuerySpecState) := append_group s "source"

/-- PTOQuerySpec.group_by_target. -/
def group_by_target_ (s : PTOQuerySpecState) := append_group s "target"

/-- PTOQuerySpec.count_unique_targets: appends the option tag; the
method body has no return statement, so the call evaluates to None. -/
def count_unique_targets_ (s : PTOQuerySpecState) :
    PTOQuerySpecState × Except PyExc RetVal :=
  ({ s with options := s.options ++ ["count_targets"] }, .ok .rnone)

/-- PTOQuerySpec.return_sets_only: appends the option tag; the method
body has no return statement, so the call evaluates to None. -/
def return_sets_only_ (s : PTOQuerySpecState) :
    PTOQuerySpecState × Except PyExc RetVal :=
  ({ s with options := s.options ++ ["sets_only"] }, .ok .rnone)

/-- A value in the parameter dict built by _params: time_start and
time_end are single possibly-None values, every other entry is the
whole backing list. -/
inductive ParamVal where
  | single (v : Option String)
  | multi (vs : List String)
deriving DecidableEq

/-- PTOQuerySpec._params: always writes time_start and time_end, then
conditionally adds each non-empty collection under its parameter name,
in source order.  The set_ids attribute is never consulted. -/
def params_ (s : PTOQuerySpecState) : List (String × ParamVal) :=
  [("time_start", ParamVal.single s.time_start), ("time_end", ParamVal.single s.time_end)]
  ++ (if s.on_path.length ≠ 0 then [("on_path", ParamVal.multi s.on_path)] else [])
  ++ (if s.sources.length ≠ 0 then [("source", ParamVal.multi s.sources)] else [])
  ++ (if s.targets.length ≠ 0 then [("target", ParamVal.multi s.targets)] else [])
  ++ (if s.conditions.length ≠ 0 then [("condition", ParamVal.multi s.conditions)] else [])
  ++ (if s.group.length ≠ 0 then [("group", ParamVal.multi s.group)] else [])
  ++ (if s.options.length ≠ 0 then [("option", ParamVal.multi s.options)] else [])

/-! PTOQuery: metadata caching and the paginated results pull. -/

/-- One HTTP response as the transport layer hands it to the client:
status code, the JSON-decoded body, and the raw text. -/
structure HttpResp where
  status : Nat
  body : JVal
  text : String

/-- The HTTP oracle: what requests.get returns for each URL. -/
def HttpOracle : Type := String → HttpResp

/-- The mutable state of a PTOQuery object: its identity URL, the
cached metadata object, and the accumulated result records. -/
structure PTOQueryState where
  url : String
  mdata : Option JVal
  results : Option (List Record)

/-- PTOQuery.metadata: refetches when there is no cache or reload is
set; a 200 response replaces the cache, while a non-200 response is
silently dropped - the source has no else branch here, so no exception
is raised and the stale cache (possibly None) is returned.  The Except
layer records that the method raises no exception on any path. -/
def metadata_ (http : HttpOracle) (q : PTOQueryState) (reload : Bool) :
    Except PyExc (PTOQueryState × Option JVal) :=
  if q.mdata.isNone || reload then
    let r := http q.url
    if r.status = 200 then
      .ok ({ q with mdata := some r.body }, some r.body)
    else
      .ok (q, q.mdata)
  else
    .ok (q, q.mdata)

/-- The paging while-loop inside PTOQuery.results, with the running
value of self._results threaded through.  Each iteration GETs the
current page; on 200 the decoded records are appended to self._results
(or become self._results when it is still None), then the loop follows
the next link if present; on non-200 a PTOError is raised, with the
pages accumulated so far already stored in self._results.  The outer
Option is the fuel: none means the loop was still running. -/
def pageLoop (http : HttpOracle) :
    Nat → String → Option (List Record) →
    Option (Option (List Record) × Except PyExc Unit)
  | 0, _, _ => none
  | fuel + 1, url, res =>
      let r := http url
      if r.status = 200 then
        match reload_http_gen r.body with
        | .error e => some (res, .error e)
        | .ok recs =>
            let res' : Option (List Record) :=
              match res with
              | none => some recs
              | some old => some (old ++ recs)
            match pyContains r.body "next" with
            | .error e => some (res', .error e)
            | .ok true =>
                match pyGetItem r.body "next" with
                | .error e => some (res', .error e)
                | .ok (.jstr nextUrl) => pageLoop http fuel nextUrl res'
                | .ok _ => some (res', .error (.typeError "url must be a string"))
            | .ok false => some (res', .ok ())
      else
        some (res, .error (.ptoError r.status r.text))

/-- PTOQuery.results: when self._results is None or reload is set, the
metadata is (re)read with the same reload flag; a metadata object
without a __result key makes the method return None (the still-executing
sentinel); otherwise the paging loop runs starting from the cached
self._results - which reload does NOT clear.  The returned pair is the
object state after the call and the outcome (records, sentinel None, or
the raised exception); the outer Option is the paging fuel. -/
def results_ (http : HttpOracle) (fuel : Nat) (q : PTOQueryState) (reload : Bool) :
    Option (PTOQueryState × Except PyExc (Option (List Record))) :=
  if q.results.isNone || reload then
    match metadata_ http q reload with
    | .error e => some (q, .error e)
    | .ok (q1, m) =>
        match m with
        | none => some (q1, .error (.typeError "argument of type NoneType is not iterable"))
        | some mj =>
            match pyContains mj "__result" with
            | .error e => some (q1, .error e)
            | .ok false => some (q1, .ok none)
            | .ok true =>
                match pyGetItem mj "__result" with
                | .error e => some (q1, .error e)
                | .ok (.jstr rurl) =>
                    match pageLoop http fuel rurl q1.results with
                    | none => none
                    | some (res', .error e) => some ({ q1 with results := res' }, .error e)
                    | some (res', .ok ()) => some ({ q1 with results := res' }, .ok res')
                | .ok _ => some (q1, .error (.typeError "url must be a string"))
  else
    some (q, .ok q.results)

/-! Provenance: the breadth-first provenance crawler. -/

/-- The state of a Provenance object while _iterate runs: the edge dict
(insertion-ordered, as python dicts are), the error list, the FIFO
frontier deque, and - as observable instrumentation - the list of URLs
passed to _retrieve_provenance so far, in call order. -/
structure CrawlState where
  edges : List (String × List String)
  errors : List String
  urlq : List String
  fetched : List String
deriving DecidableEq

/-- The state set up by the Provenance constructor before _iterate. -/
def CrawlState.start : CrawlState :=
  ⟨[], [], [], []⟩

/-- Python dict assignment d[k] = v: overwrite in place when the key
exists (keeping its position), append otherwise. -/
def dictSet (d : List (String × List String)) (k : String) (v : List String) :
    List (String × List String) :=
  if d.any (fun e => e.1 == k) then
    d.map (fun e => if e.1 == k then (k, v) else e)
  else
    d ++ [(k, v)]

/-- The edge dict after the body of _iterate processed antecedent list p
for url: assigned only when p is non-empty. -/
def stepEdges (s : CrawlState) (url : String) (p : List String) :
    List (String × List String) :=
  if 0 < p.length then dictSet s.edges url p else s.edges

/-- The frontier after the body of _iterate processed antecedent list p:
each antecedent is appended, in order, iff it is not a key of the
(already updated) edge dict and its authority equals the seed authority.
nl is the external urlparse netloc oracle and snl the seed authority. -/
def stepQueue (nl : String → String) (snl : String) (s : CrawlState) (url : String)
    (p : List String) : List String :=
  s.urlq ++ p.filter (fun u =>
    !((stepEdges s url p).any (fun e => e.1 == u)) && (nl u == snl))

/-- One pass through the body of the while True loop of
Provenance._iterate.  Sum.inl (url, s) means the loop continues with
url as the current URL; Sum.inr s means it hit break.  On a fetch or
parse failure (fetch url = none) the URL is appended to the error list
and the bare continue statement re-enters the loop WITHOUT touching the
frontier, so the current URL stays the same.  On success the edge dict
and the frontier are updated, and the loop breaks when the frontier is
empty or pops its head otherwise. -/
def crawlStep (nl : String → String) (snl : String)
    (fetch : String → Option (List String)) (url : String) (s : CrawlState) :
    (String × CrawlState) ⊕ CrawlState :=
  match fetch url with
  | none =>
      Sum.inl (url, { s with fetched := s.fetched ++ [url], errors := s.errors ++ [url] })
  | some p =>
      match stepQueue nl snl s url p with
      | [] =>
          Sum.inr
            { edges := stepEdges s url p, errors := s.errors,
              urlq := [], fetched := s.fetched ++ [url] }
      | u :: rest =>
          Sum.inl (u,
            { edges := stepEdges s url p, errors := s.errors,
              urlq := rest, fetched := s.fetched ++ [url] })

/-- The while True loop of Provenance._iterate, with fuel: none means
the loop had not terminated after that many iterations. -/
def crawlLoop (nl : String → String) (snl : String)
    (fetch : String → Option (List String)) :
    Nat → String → CrawlState → Option CrawlState
  | 0, _, _ => none
  | fuel + 1, url, s =>
      match crawlStep nl snl fetch url s with
      | Sum.inr s' => some s'
      | Sum.inl (url', s') => crawlLoop nl snl fetch fuel url' s'

/-- Provenance.__init__ plus _iterate: the seed authority is the netloc
of the seed URL, the state starts empty, and the loop starts at the
seed.  fetch is the _retrieve_provenance oracle: none models any
exception during the GET or the JSON handling of that node, some p the
combined _sources plus _analyzer antecedent list. -/
def crawl (fuel : Nat) (nl : String → String)
    (fetch : String → Option (List String)) (seed : String) : Option CrawlState :=
  crawlLoop nl (nl seed) fetch fuel seed CrawlState.start

/-! Concrete fixtures used by the theorems below. -/

/-- The observation page from the spec example: obs holding a single
7-element row. -/
def pageC2 : JVal :=
  .jobj [("obs", .jarr [.jarr [.jnum 0, .jstr "s1", .jstr "2020-01-01T00:00:00Z",
    .jstr "2020-01-01T01:00:00Z", .jstr "/p", .jstr "c1", .jnum 5]])]

/-- Query metadata whose __result link points at page URL R. -/
def mMetaC3 : JVal := .jobj [("__result", .jstr "R")]

/-- A record accumulated by an earlier pull. -/
def oldRecC3 : Record :=
  .obs (.jnum 1) (.jstr "a") (.jstr "b") (.jstr "c") (.jstr "d") (.jnum 5)

/-- The record served by the fresh page. -/
def newRecC3 : Record :=
  .obs (.jnum 9) (.jstr "t0") (.jstr "t1") (.jstr "p") (.jstr "c") (.jnum 7)

/-- A server serving metadata at Q and one final obs page at R. -/
def httpC3 : HttpOracle := fun u =>
  if u = "Q" then ⟨200, mMetaC3, ""⟩
  else if u = "R" then
    ⟨200, .jobj [("obs", .jarr [.jarr [.jnum 9, .jstr "t0", .jstr "t1",
      .jstr "p", .jstr "c", .jnum 7]])], ""⟩
  else ⟨404, .jnull, "not found"⟩

/-- A query object that already holds results from an earlier pull. -/
def qC3 : PTOQueryState := ⟨"Q", some mMetaC3, some [oldRecC3]⟩

/-- Cached metadata for the stale-metadata scenario. -/
def mCachedC4 : JVal := .jobj [("k", .jnum 1)]

/-- A query object with cached metadata. -/
def qC4 : PTOQueryState := ⟨"Q2", some mCachedC4, none⟩

/-- A server answering 500 to everything. -/
def http500 : HttpOracle := fun _ => ⟨500, .jnull, "internal error"⟩

/-- Provenance oracle: a has antecedents b and c, b has antecedent c,
and c is a leaf; every fetch succeeds. -/
def fetch6 : String → Option (List String) := fun u =>
  if u = "a" then some ["b", "c"]
  else if u = "b" then some ["c"]
  else some []

/-- Authority oracle for the cross-origin scenario: X lives on another
authority than everything else. -/
def nl7 : String → String := fun u => if u = "X" then "y" else "x"

/-- Provenance oracle: the seed a has the single antecedent X. -/
def fetch7 : String → Option (List String) := fun u =>
  if u = "a" then some ["X"] else none

/-- A spec state that already carries two grouping dimensions. -/
def specTwoGroups : PTOQuerySpecState :=
  { PTOQuerySpecState.init with group := ["year", "month"] }

/-- Authority oracle placing every URL on the same authority. -/
def nl6 : String → String := fun _ => "x"

/-- The final crawler state for the fetch6 scenario: note c appears
twice in the fetched list. -/
def crawl6Final : CrawlState :=
  ⟨[("a", ["b", "c"]), ("b", ["c"])], [], [], ["a", "b", "c", "c"]⟩

/-- The final crawler state for the nl7/fetch7 scenario: the
cross-origin X is recorded inside the edge value list of a. -/
def crawl7Final : CrawlState :=
  ⟨[("a", ["X"])], [], [], ["a"]⟩

/-! Theorems settling the claims. -/

/-- C2 (amended): the decoder reads array positions 0 through 5 of an
observation row as set_id, time_start, time_end, path, condition and
value in that order, ignoring any further elements; decoding the page
whose single obs row is the 7-element array 0, s1,
2020-01-01T00:00:00Z, 2020-01-01T01:00:00Z, /p, c1, 5 therefore yields
exactly one Observation record whose set_id is the number 0 and whose
value is the string c1, the element at position 6 being dropped. -/
theorem obs_row_field_positions (a b c d e f : JVal) (rest : List JVal) :
    parse_observation_result (.jarr (a :: b :: c :: d :: e :: f :: rest)) =
      .ok (.obs a b c d e f) ∧
    reload_http_gen pageC2 =
      .ok [.obs (.jnum 0) (.jstr "s1") (.jstr "2020-01-01T00:00:00Z")
        (.jstr "2020-01-01T01:00:00Z") (.jstr "/p") (.jstr "c1")] :=
  ⟨rfl, rfl⟩

/-- C2 counterexample: on the page of the claim the decoder yields one
record whose set_id is the number 0, not the string s1, and whose value
is the string c1, not the number 5 - so position 0 is not reserved and
position 1 is not the set_id. -/
theorem obs_page_decode_counterexample :
    reload_http_gen pageC2 =
      .ok [.obs (.jnum 0) (.jstr "s1") (.jstr "2020-01-01T00:00:00Z")
        (.jstr "2020-01-01T01:00:00Z") (.jstr "/p") (.jstr "c1")] ∧
    JVal.jnum 0 ≠ JVal.jstr "s1" ∧ JVal.jstr "c1" ≠ JVal.jnum 5 :=
  ⟨rfl, fun h => JVal.noConfusion h, fun h => JVal.noConfusion h⟩

/-- C5 (amended): a 2-element group row decodes to a group/count
record and a 3-element row to a group0/group1/count record; a row of
any other length makes the decoder raise an AttributeError (its
fallback branch evaluates j.dumps(), and JSON rows have no dumps
attribute) - not the DecodeError the spec taxonomy names, which the
code never defines nor raises. -/
theorem group_row_decoding (a b c : JVal) (j : JVal) (n : Nat)
    (hn : pyLen j = .ok n) (h2 : n ≠ 2) (h3 : n ≠ 3) :
    parse_group_result (.jarr [a, b]) = .ok (.group a b) ∧
    parse_group_result (.jarr [a, b, c]) = .ok (.group2 a b c) ∧
    parse_group_result j =
      .error (.attributeError "list object has no attribute dumps") := by
  refine ⟨rfl, rfl, ?_⟩
  unfold parse_group_result
  rw [hn]
  simp only [if_neg h2, if_neg h3]

/-- Witness for group_row_decoding at a concrete 4-element row. -/
theorem group_row_decoding_witness :
    parse_group_result (.jarr [.jstr "US", .jstr "mobile", .jnum 17, .jnum 4]) =
      .error (.attributeError "list object has no attribute dumps") :=
  (group_row_decoding (.jstr "US") (.jstr "mobile") (.jnum 17)
    (.jarr [.jstr "US", .jstr "mobile", .jnum 17, .jnum 4]) 4
    rfl (by decide) (by decide)).2.2

/-- C5 counterexample: the 4-element row raises an AttributeError, which
is not a DecodeError - the claimed DecodeError does not exist in the
code. -/
theorem group_row_four_elements_not_decode_error :
    parse_group_result (.jarr [.jstr "US", .jstr "mobile", .jnum 17, .jnum 4]) =
      .error (.attributeError "list object has no attribute dumps") ∧
    PyExc.attributeError "list object has no attribute dumps" ≠ PyExc.decodeError :=
  ⟨rfl, fun h => PyExc.noConfusion h⟩

/-- C4 is a code bug: PTOQuery.metadata has no else branch raising
PTOError, so a non-success response is silently swallowed - with a warm
cache and reload=True a 500 response returns the stale cached object,
and with a cold cache it returns None; no exception is raised on any
path. -/
theorem metadata_swallows_http_error :
    metadata_ http500 qC4 true = .ok (qC4, some mCachedC4) ∧
    metadata_ http500 ⟨"Q2", none, none⟩ false = .ok (⟨"Q2", none, none⟩, none) :=
  ⟨rfl, rfl⟩

/-- C3 is a code bug: results(reload=True) does not clear the cached
self._results, so the first fresh page takes the concat branch of the
paging loop and the call returns the old record followed by the new one
- old and new pulls are merged, not replaced. -/
theorem results_reload_merges_old_and_new :
    results_ httpC3 4 qC3 true =
      some (⟨"Q", some mMetaC3, some [oldRecC3, newRecC3]⟩,
        .ok (some [oldRecC3, newRecC3])) :=
  rfl

/-- Helper for C9: set_id either returns self (all arguments were ints
or strings) or raises; it never returns None. -/
theorem set_id_never_returns_none (args : List PyArg) :
    ∀ s : PTOQuerySpecState,
      (set_id_ s args).2 = .ok .rself ∨ ∃ e, (set_id_ s args).2 = .error e := by
  induction args with
  | nil => intro s; left; rfl
  | cons a rest ih =>
      intro s
      cases a with
      | int n => exact ih _
      | str v => exact ih _
      | other r => right; exact ⟨_, rfl⟩

/-- C8: every grouping operation goes through _append_group, which on a
spec already holding two grouping dimensions raises the ValueError (the
configuration error of the spec taxonomy) with the state unchanged, and
which on fewer than two dimensions appends the tag and returns self. -/
theorem grouping_third_dimension_rejected (s : PTOQuerySpecState) (g : String) :
    (s.group.length = 2 → append_group s g = (s, .error (.valueError groupDimMsg))) ∧
    (s.group.length < 2 →
      append_group s g = ({ s with group := s.group ++ [g] }, .ok .rself)) ∧
    time_series_year_ s = append_group s "year" ∧
    time_series_month_ s = append_group s "month" ∧
    time_series_week_ s = append_group s "week" ∧
    time_series_day_ s = append_group s "day" ∧
    time_series_hour_ s = append_group s "hour" ∧
    group_by_day_of_week_ s = append_group s "week_day" ∧
    group_by_hour_of_day_ s = append_group s "day_hour" ∧
    group_by_condition_ s = append_group s "condition" ∧
    group_by_source_ s = append_group s "source" ∧
    group_by_target_ s = append_group s "target" := by
  refine ⟨?_, ?_, rfl, rfl, rfl, rfl, rfl, rfl, rfl, rfl, rfl, rfl⟩
  · intro h
    unfold append_group
    rw [if_pos (by omega)]
  · intro h
    unfold append_group
    rw [if_neg (by omega)]

/-- Witness for grouping_third_dimension_rejected: with two dimensions
recorded a third one is refused and the state survives unchanged, and
on a fresh spec the first dimension is appended. -/
theorem grouping_third_dimension_rejected_witness :
    append_group specTwoGroups "day" = (specTwoGroups, .error (.valueError groupDimMsg)) ∧
    append_group PTOQuerySpecState.init "year" =
      ({ PTOQuerySpecState.init with group := ["year"] }, .ok .rself) :=
  ⟨(grouping_third_dimension_rejected specTwoGroups "day").1 rfl,
   (grouping_third_dimension_rejected PTOQuerySpecState.init "year").2.1 (by decide)⟩

/-- C9 (amended): the filter setters on_path, source, target and
condition, a successful set_id, a successful grouping operation, and a
successful time call all return the spec itself; the two option setters
count_unique_targets and return_sets_only have no return statement and
evaluate to None, so they cannot be chained. -/
theorem setters_chainability (s : PTOQuerySpecState) (args : List PyArg) (g : String)
    (dparse : String → Option Nat) (fmt : Nat → String) (t1 t2 : Nat) :
    (on_path_ s args).2 = .ok .rself ∧
    (source_ s args).2 = .ok .rself ∧
    (target_ s args).2 = .ok .rself ∧
    (condition_ s args).2 = .ok .rself ∧
    ((set_id_ s args).2 = .ok .rself ∨ ∃ e, (set_id_ s args).2 = .error e) ∧
    (s.group.length < 2 → (append_group s g).2 = .ok .rself) ∧
    (time_ dparse fmt s (.dt t1) (.dt t2)).2 = .ok .rself ∧
    (count_unique_targets_ s).2 = .ok .rnone ∧
    (return_sets_only_ s).2 = .ok .rnone := by
  refine ⟨rfl, rfl, rfl, rfl, set_id_never_returns_none args s, ?_, rfl, rfl, rfl⟩
  intro h
  unfold append_group
  rw [if_neg (by omega)]

/-- Witness for setters_chainability on a fresh spec. -/
theorem setters_chainability_witness :
    (on_path_ PTOQuerySpecState.init [PyArg.str "p"]).2 = Except.ok RetVal.rself ∧
    (append_group PTOQuerySpecState.init "year").2 = Except.ok RetVal.rself :=
  ⟨(setters_chainability PTOQuerySpecState.init [PyArg.str "p"] "year"
      (fun _ => none) (fun _ => "t") 0 0).1,
   (setters_chainability PTOQuerySpecState.init [PyArg.str "p"] "year"
      (fun _ => none) (fun _ => "t") 0 0).2.2.2.2.2.1 (by decide)⟩

/-- C9 counterexample: the option setters evaluate to None, not to the
spec object, so the claim that every option setter returns the spec
itself fails on them. -/
theorem option_setters_return_none :
    (count_unique_targets_ PTOQuerySpecState.init).2 = .ok .rnone ∧
    (return_sets_only_ PTOQuerySpecState.init).2 = .ok .rnone ∧
    (Except.ok RetVal.rnone : Except PyExc RetVal) ≠ .ok .rself :=
  ⟨rfl, rfl, fun h => RetVal.noConfusion (Except.ok.inj h)⟩

/-- Helper for C10: set_id only ever changes the set_ids attribute. -/
theorem set_id_only_touches_set_ids (args : List PyArg) :
    ∀ s : PTOQuerySpecState, ∃ ids, (set_id_ s args).1 = { s with set_ids := ids } := by
  induction args with
  | nil => intro s; exact ⟨s.set_ids, rfl⟩
  | cons a rest ih =>
      intro s
      cases a with
      | int n => exact ih { s with set_ids := s.set_ids ++ [toHexLower n] }
      | str v =>
          exact ih
            { s with
              set_ids := s.set_ids ++ [String.mk ((splitChars '/' v.toList).getLastD [])] }
      | other r => exact ⟨s.set_ids, rfl⟩

/-- C10: the parameter dict built by _params never carries a set_id
key, whatever the state holds; calling set_id stores the canonicalized
identifiers (lowercase hex for ints, trailing path segment for strings)
in the spec but leaves the parameter dict bit-for-bit identical. -/
theorem params_omit_set_ids (s : PTOQuerySpecState) (args : List PyArg) :
    "set_id" ∉ (params_ s).map Prod.fst ∧
    params_ ((set_id_ s args).1) = params_ s ∧
    (∀ n : Int, ((set_id_ s [PyArg.int n]).1).set_ids = s.set_ids ++ [toHexLower n]) ∧
    (∀ v : String,
      ((set_id_ s [PyArg.str v]).1).set_ids =
        s.set_ids ++ [String.mk ((splitChars '/' v.toList).getLastD [])]) := by
  refine ⟨?_, ?_, fun n => rfl, fun v => rfl⟩
  · intro hmem
    unfold params_ at hmem
    split_ifs at hmem <;> simp_all
  · obtain ⟨ids, h⟩ := set_id_only_touches_set_ids args s
    rw [h]
    rfl

/-- Witness for params_omit_set_ids: the canonicalization examples of
the spec, with the parameter dict unchanged. -/
theorem params_omit_set_ids_witness :
    params_ ((set_id_ PTOQuerySpecState.init [PyArg.int 42]).1) =
      params_ PTOQuerySpecState.init ∧
    ((set_id_ PTOQuerySpecState.init [PyArg.int 42]).1).set_ids =
      PTOQuerySpecState.init.set_ids ++ [toHexLower 42] :=
  ⟨(params_omit_set_ids PTOQuerySpecState.init [PyArg.int 42]).2.1,
   (params_omit_set_ids PTOQuerySpecState.init []).2.2.1 42⟩

/-- Helper for C1: when fetching the current URL fails, the loop body
appends the URL to the error list and the bare continue re-enters the
loop with the same current URL, so the loop consumes all its fuel. -/
theorem crawlLoop_fetch_failure (nl : String → String) (snl : String)
    (fetch : String → Option (List String)) (url : String)
    (h : fetch url = none) :
    ∀ (fuel : Nat) (s : CrawlState), crawlLoop nl snl fetch fuel url s = none := by
  intro fuel
  induction fuel with
  | zero => intro s; rfl
  | succ n ih =>
      intro s
      simp only [crawlLoop, crawlStep, h]
      exact ih _

/-- C1 is a code bug: once the provenance fetch of any node fails, the
except branch of _iterate appends the URL to the error list and its
bare continue statement re-enters the while loop WITHOUT moving to the
next queued URL, so the very same URL is retried forever: the traversal
never terminates (no fuel suffices), the URL is appended to the error
list once per retry rather than exactly once, and the remaining queued
work is never reached. -/
theorem crawl_diverges_on_fetch_failure (fuel : Nat) :
    crawl fuel (fun _ => "pto.example") (fun _ => none) "https://pto.example/q/1" = none :=
  crawlLoop_fetch_failure _ _ _ _ rfl fuel _

/-- Membership in a python dict after an assignment: every entry either
carries the assigned key or was already present. -/
theorem dictSet_mem (d : List (String × List String)) (k : String) (v : List String) :
    ∀ e ∈ dictSet d k v, e.1 = k ∨ e ∈ d := by
  intro e he
  unfold dictSet at he
  split at he
  · rw [List.mem_map] at he
    obtain ⟨a, ha, hae⟩ := he
    by_cases hk : a.1 == k
    · rw [if_pos hk] at hae
      left; rw [← hae]
    · rw [if_neg hk] at hae
      right; rw [← hae]; exact ha
  · rw [List.mem_append] at he
    rcases he with he | he
    · right; exact he
    · left
      rw [List.mem_singleton] at he
      rw [he]

/-- Membership in the edge dict after one loop body: the current URL or
an entry already recorded. -/
theorem stepEdges_mem (s : CrawlState) (url : String) (p : List String) :
    ∀ e ∈ stepEdges s url p, e.1 = url ∨ e ∈ s.edges := by
  intro e he
  unfold stepEdges at he
  split at he
  · exact dictSet_mem s.edges url p e he
  · right; exact he

/-- Membership in the frontier after one loop body: an already queued
URL, or a fresh antecedent that passed the authority filter. -/
theorem stepQueue_mem (nl : String → String) (snl : String) (s : CrawlState)
    (url : String) (p : List String) :
    ∀ u ∈ stepQueue nl snl s url p, u ∈ s.urlq ∨ nl u = snl := by
  intro u hu
  unfold stepQueue at hu
  rw [List.mem_append] at hu
  rcases hu with hu | hu
  · left; exact hu
  · right
    rw [List.mem_filter] at hu
    have h2 := hu.2
    rw [Bool.and_eq_true] at h2
    exact eq_of_beq h2.2

/-- Rewriting lemma: the loop body on a failed fetch. -/
theorem crawlStep_fetch_none (nl : String → String) (snl : String)
    (fetch : String → Option (List String)) (url : String) (s : CrawlState)
    (h : fetch url = none) :
    crawlStep nl snl fetch url s =
      Sum.inl (url,
        { s with fetched := s.fetched ++ [url], errors := s.errors ++ [url] }) := by
  unfold crawlStep
  rw [h]

/-- Rewriting lemma: the loop body on a successful fetch whose updated
frontier is empty hits break. -/
theorem crawlStep_fetch_some_nil (nl : String → String) (snl : String)
    (fetch : String → Option (List String)) (url : String) (s : CrawlState)
    (p : List String) (h : fetch url = some p)
    (hq : stepQueue nl snl s url p = []) :
    crawlStep nl snl fetch url s =
      Sum.inr
        { edges := stepEdges s url p, errors := s.errors, urlq := [],
          fetched := s.fetched ++ [url] } := by
  unfold crawlStep
  simp only [h]
  rw [hq]

/-- Rewriting lemma: the loop body on a successful fetch whose updated
frontier is non-empty pops its head. -/
theorem crawlStep_fetch_some_cons (nl : String → String) (snl : String)
    (fetch : String → Option (List String)) (url : String) (s : CrawlState)
    (p : List String) (u : String) (rest : List String)
    (h : fetch url = some p) (hq : stepQueue nl snl s url p = u :: rest) :
    crawlStep nl snl fetch url s =
      Sum.inl (u,
        { edges := stepEdges s url p, errors := s.errors, urlq := rest,
          fetched := s.fetched ++ [url] }) := by
  unfold crawlStep
  simp only [h]
  rw [hq]

/-- The central invariant of Provenance._iterate: when the current URL
has the seed authority, every queued URL has the seed authority, every
fetched URL has the seed authority, and the edge keys and errors are
fetched URLs, then any terminating run preserves all of it: the final
fetched list holds only seed-authority URLs, and the final edge keys
and error entries are fetched URLs. -/
theorem crawlLoop_invariant (nl : String → String) (snl : String)
    (fetch : String → Option (List String)) :
    ∀ (fuel : Nat) (url : String) (s s' : CrawlState),
      nl url = snl →
      (∀ u ∈ s.urlq, nl u = snl) →
      (∀ u ∈ s.fetched, nl u = snl) →
      (∀ e ∈ s.edges, e.1 ∈ s.fetched) →
      (∀ u ∈ s.errors, u ∈ s.fetched) →
      crawlLoop nl snl fetch fuel url s = some s' →
      (∀ u ∈ s'.fetched, nl u = snl) ∧
      (∀ e ∈ s'.edges, e.1 ∈ s'.fetched) ∧
      (∀ u ∈ s'.errors, u ∈ s'.fetched) := by
  intro fuel
  induction fuel with
  | zero =>
      intro url s s' _ _ _ _ _ hrun
      exact absurd hrun (by simp [crawlLoop])
  | succ n ih =>
      intro url s s' hurl hq hf he herr hrun
      cases hfetch : fetch url with
      | none =>
          have hred : crawlLoop nl snl fetch (n + 1) url s =
              crawlLoop nl snl fetch n url
                { s with fetched := s.fetched ++ [url], errors := s.errors ++ [url] } := by
            rw [crawlLoop, crawlStep_fetch_none nl snl fetch url s hfetch]
          rw [hred] at hrun
          refine ih url
            { s with fetched := s.fetched ++ [url], errors := s.errors ++ [url] }
            s' hurl hq ?_ ?_ ?_ hrun
          · intro u hu
            rcases List.mem_append.mp hu with hu | hu
            · exact hf u hu
            · rw [List.mem_singleton] at hu
              rw [hu]; exact hurl
          · intro e he2
            exact List.mem_append_left _ (he e he2)
          · intro u hu
            rcases List.mem_append.mp hu with hu | hu
            · exact List.mem_append_left _ (herr u hu)
            · exact List.mem_append_right _ hu
      | some p =>
          cases hqq : stepQueue nl snl s url p with
          | nil =>
              have hred : crawlLoop nl snl fetch (n + 1) url s =
                  some
                    { edges := stepEdges s url p, errors := s.errors, urlq := [],
                      fetched := s.fetched ++ [url] } := by
                rw [crawlLoop, crawlStep_fetch_some_nil nl snl fetch url s p hfetch hqq]
              rw [hred] at hrun
              obtain rfl : _ = s' := Option.some.inj hrun
              refine ⟨?_, ?_, ?_⟩
              · intro u hu
                rcases List.mem_append.mp hu with hu | hu
                · exact hf u hu
                · rw [List.mem_singleton] at hu
                  rw [hu]; exact hurl
              · intro e he2
                rcases stepEdges_mem s url p e he2 with h1 | h1
                · rw [h1]
                  exact List.mem_append_right _ (List.mem_singleton.mpr rfl)
                · exact List.mem_append_left _ (he e h1)
              · intro u hu
                exact List.mem_append_left _ (herr u hu)
          | cons u rest =>
              have hred : crawlLoop nl snl fetch (n + 1) url s =
                  crawlLoop nl snl fetch n u
                    { edges := stepEdges s url p, errors := s.errors, urlq := rest,
                      fetched := s.fetched ++ [url] } := by
                rw [crawlLoop, crawlStep_fetch_some_cons nl snl fetch url s p u rest hfetch hqq]
              rw [hred] at hrun
              have hu0 : nl u = snl := by
                rcases stepQueue_mem nl snl s url p u (by rw [hqq]; exact List.mem_cons_self u rest) with h1 | h1
                · exact hq u h1
                · exact h1
              refine ih u
                { edges := stepEdges s url p, errors := s.errors, urlq := rest,
                  fetched := s.fetched ++ [url] }
                s' hu0 ?_ ?_ ?_ ?_ hrun
              · intro x hx
                rcases stepQueue_mem nl snl s url p x
                    (by rw [hqq]; exact List.mem_cons_of_mem u hx) with h1 | h1
                · exact hq x h1
                · exact h1
              · intro x hx
                rcases List.mem_append.mp hx with hx | hx
                · exact hf x hx
                · rw [List.mem_singleton] at hx
                  rw [hx]; exact hurl
              · intro e he2
                rcases stepEdges_mem s url p e he2 with h1 | h1
                · rw [h1]
                  exact List.mem_append_right _ (List.mem_singleton.mpr rfl)
                · exact List.mem_append_left _ (he e h1)
              · intro x hx
                exact List.mem_append_left _ (herr x hx)

/-- C6 (amended): every URL the crawler fetches has the seed authority
(URLs only enter the FIFO frontier when they are not currently edge-map
keys and their authority matches the seed authority); but a URL may be enqueued
and fetched MORE than once when it is re-encountered before acquiring
an edge-map entry, e.g. a leaf or a still-queued antecedent reachable
from two parents, because being visited is approximated by being an
edge key. -/
theorem crawl_fetches_only_seed_authority (fuel : Nat) (nl : String → String)
    (fetch : String → Option (List String)) (seed : String) (s' : CrawlState)
    (h : crawl fuel nl fetch seed = some s') :
    ∀ u ∈ s'.fetched, nl u = nl seed := by
  have hin := crawlLoop_invariant nl (nl seed) fetch fuel seed CrawlState.start s' rfl
    (by intro u hu; simp [CrawlState.start] at hu)
    (by intro u hu; simp [CrawlState.start] at hu)
    (by intro e he; simp [CrawlState.start] at he)
    (by intro u hu; simp [CrawlState.start] at hu) h
  exact hin.1

/-- Witness for crawl_fetches_only_seed_authority, instantiated on the
three-node fetch6 scenario at the fetched URL b. -/
theorem crawl_fetches_only_seed_authority_witness : nl6 "b" = nl6 "a" :=
  crawl_fetches_only_seed_authority 10 nl6 fetch6 "a" crawl6Final rfl "b" (by decide)

/-- C6 counterexample: on the crawl a has antecedents b and c, b has
antecedent c, c is a leaf; c is enqueued twice (it has no edge entry
when b is expanded) and hence fetched twice, refuting that every node
URL is fetched at most once. -/
theorem crawl_fetches_leaf_twice :
    (crawl 10 nl6 fetch6 "a").map CrawlState.fetched = some ["a", "b", "c", "c"] ∧
    (["a", "b", "c", "c"] : List String).count "c" = 2 := by
  refine ⟨rfl, ?_⟩
  decide

/-- C7 (amended): an antecedent URL whose authority differs from the
seed authority is never fetched, never becomes an edge-map key and never enters
the error list; it can however appear inside the antecedent value list
of the edge-map entry of its parent, which is recorded before the authority
filter runs. -/
theorem crawl_never_touches_cross_origin (fuel : Nat) (nl : String → String)
    (fetch : String → Option (List String)) (seed : String) (s' : CrawlState)
    (v : String) (h : crawl fuel nl fetch seed = some s') (hv : nl v ≠ nl seed) :
    v ∉ s'.fetched ∧ (∀ e ∈ s'.edges, e.1 ≠ v) ∧ v ∉ s'.errors := by
  have hin := crawlLoop_invariant nl (nl seed) fetch fuel seed CrawlState.start s' rfl
    (by intro u hu; simp [CrawlState.start] at hu)
    (by intro u hu; simp [CrawlState.start] at hu)
    (by intro e he; simp [CrawlState.start] at he)
    (by intro u hu; simp [CrawlState.start] at hu) h
  obtain ⟨hfetched, hedges, herrs⟩ := hin
  refine ⟨fun hmem => hv (hfetched v hmem), fun e he2 heq => ?_,
    fun hmem => hv (hfetched v (herrs v hmem))⟩
  exact hv (heq ▸ hfetched e.1 (hedges e he2))

/-- Witness for crawl_never_touches_cross_origin on the nl7/fetch7
scenario: the cross-origin antecedent X is never fetched. -/
theorem crawl_never_touches_cross_origin_witness : "X" ∉ crawl7Final.fetched :=
  (crawl_never_touches_cross_origin 10 nl7 fetch7 "a" crawl7Final "X" rfl
    (by decide)).1

/-- C7 counterexample: with the seed a deriving from the cross-origin
X, the finished structure does record X - as the antecedent value in
the edge entry of a - refuting that a cross-origin antecedent appears
nowhere in the recorded output. -/
theorem crawl_records_cross_origin_in_edge_values :
    (crawl 10 nl7 fetch7 "a").map CrawlState.edges = some [("a", ["X"])] ∧
    nl7 "X" ≠ nl7 "a" := by
  refine ⟨rfl, ?_⟩
  decide
